import Mathlib

/-!
Verification of the bootstrap core of the nova-editor desktop shell.

The only decision logic of the repository is `run` in
`src/src-tauri/src/lib.rs`: it chains two capability plugins ("fs" and
"dialog") and a setup hook onto a builder, runs the resulting
application against the host context, and turns any error into a fatal
panic via `.expect`.  The Builder/Runtime machinery itself belongs to
the host framework and is not part of the repository sources, so it is
modelled here from the specification's Builder/Runtime contract; the
concrete composition (`novaBuilder`, `novaSetupHook`, `run`) is a
direct translation of `lib.rs`.
-/

/-- Modelled from the spec: the `ApplicationContext`, a process-wide
handle produced by loading host configuration (packaged metadata); its
internals are opaque to the bootstrap core. -/
structure ApplicationContext where
  config : String
  deriving Repr, DecidableEq

/-- Modelled from the spec: a `PluginDescriptor` is an identity (a
capability name) plus an opaque initialization routine; the routine is
abstracted to the well-formedness flag that `build` validation
inspects. -/
structure PluginDescriptor where
  name : String
  wellFormed : Bool
  deriving Repr, DecidableEq

/-- A Setup Hook: given the `ApplicationContext`, it emits diagnostic
lines on standard output and signals success or failure. -/
def SetupHook : Type := ApplicationContext → List String × Except String Unit

/-- Modelled from the spec: the Application Builder accumulates the
ordered list of plugins and the optional Setup Hook. -/
structure Builder where
  plugins : List PluginDescriptor
  setupHook : Option SetupHook

/-- Modelled from the spec: `new()` produces an empty builder with no
plugins and no setup hook. -/
def Builder.default : Builder :=
  { plugins := [], setupHook := none }

/-- Modelled from the spec: `withPlugin` appends a `PluginDescriptor`,
preserving registration order. -/
def Builder.plugin (b : Builder) (p : PluginDescriptor) : Builder :=
  { b with plugins := b.plugins ++ [p] }

/-- Modelled from the spec: `withSetup` attaches the Setup Hook,
replacing any previously attached hook (last-write-wins). -/
def Builder.setup (b : Builder) (h : SetupHook) : Builder :=
  { b with setupHook := some h }

/-- Modelled from the spec: the fully composed, immutable Application
holding the ordered plugin list and the Setup Hook. -/
structure Application where
  plugins : List PluginDescriptor
  setupHook : Option SetupHook

/-- Modelled from the spec: `build` validates every descriptor and, if
any is malformed, fails with the aggregate list of all invalid
descriptor names rather than stopping at the first. -/
def Builder.build (b : Builder) : Except (List String) Application :=
  let bad := b.plugins.filter fun p => !p.wellFormed
  if bad.isEmpty then
    Except.ok { plugins := b.plugins, setupHook := b.setupHook }
  else
    Except.error (bad.map PluginDescriptor.name)

/-- Observable bootstrap events, listed in the order the Runtime
performs them. -/
inductive Event where
  | registered (name : String)
  | setupInvoked
  | stdout (line : String)
  | eventLoopEntered
  deriving Repr, DecidableEq

/-- Modelled from the spec: the structured fatal bootstrap errors of
the Runtime (context loading, runtime plugin registration, setup hook
failure, event-loop start failure). -/
inductive RunError where
  | contextLoad
  | pluginRegistration (name : String)
  | setupFailed (msg : String)
  | eventLoopStart
  deriving Repr, DecidableEq

/-- Human-readable rendering of a fatal bootstrap error; carries the
underlying error message. -/
def RunError.message : RunError → String
  | RunError.contextLoad => "failed to load application context"
  | RunError.pluginRegistration n => "failed to register plugin " ++ n
  | RunError.setupFailed m => m
  | RunError.eventLoopStart => "event loop failed to start"

/-- Result of the Runtime: either it is left blocking inside the event
loop, or it failed fatally before or while entering it. -/
inductive RunResult where
  | loops
  | failed (e : RunError)
  deriving Repr, DecidableEq

/-- The host environment a `run` invocation executes against: whether
context loading succeeds, which runtime plugin registrations succeed,
and whether the event loop starts. -/
structure HostEnv where
  context : Option ApplicationContext
  registerOk : String → Bool
  eventLoopStarts : Bool

/-- Trace of registering descriptors in order; stops at the first
runtime registration failure and reports the failing plugin's name. -/
def registerTrace (ok : String → Bool) : List PluginDescriptor → List Event × Option String
  | [] => ([], none)
  | p :: ps =>
    if ok p.name then
      (Event.registered p.name :: (registerTrace ok ps).1, (registerTrace ok ps).2)
    else
      ([], some p.name)

/-- Events and result of invoking the Setup Hook (when one is
attached) on the loaded context. -/
def setupEvents (hook : Option SetupHook) (ctx : ApplicationContext) :
    List Event × Except String Unit :=
  match hook with
  | none => ([], Except.ok ())
  | some h => (Event.setupInvoked :: (h ctx).1.map Event.stdout, (h ctx).2)

/-- Modelled from the spec: the Runtime's `run`.  It loads the
`ApplicationContext`, registers each `PluginDescriptor` in order,
invokes the Setup Hook once, then enters the event loop; the first
failure at any stage is fatal and later stages are never reached. -/
def Application.runWith (app : Application) (env : HostEnv) : List Event × RunResult :=
  match env.context with
  | none => ([], RunResult.failed RunError.contextLoad)
  | some ctx =>
    match registerTrace env.registerOk app.plugins with
    | (evs, some n) => (evs, RunResult.failed (RunError.pluginRegistration n))
    | (evs, none) =>
      match setupEvents app.setupHook ctx with
      | (sevs, Except.error m) => (evs ++ sevs, RunResult.failed (RunError.setupFailed m))
      | (sevs, Except.ok ()) =>
        if env.eventLoopStarts then
          (evs ++ sevs ++ [Event.eventLoopEntered], RunResult.loops)
        else
          (evs ++ sevs, RunResult.failed RunError.eventLoopStart)

/-- Final process outcome: block forever inside the event loop, or
terminate the process with an exit code and a diagnostic written to
the error stream. -/
inductive Outcome where
  | eventLoop
  | fatal (exitCode : Nat) (diagnostic : String)
  deriving Repr, DecidableEq

/-- The panic message of the `.expect` call on line 12 of `lib.rs`. -/
def expectMsg : String := "error while running tauri application"

/-- The top-level fatal handler of `lib.rs` line 12: a Rust `.expect`
panic terminates the process with exit code 101 and a diagnostic made
of the expect message followed by the error. -/
def processOutcome (r : List Event × RunResult) : List Event × Outcome :=
  match r with
  | (tr, RunResult.loops) => (tr, Outcome.eventLoop)
  | (tr, RunResult.failed e) =>
    (tr, Outcome.fatal 101 (expectMsg ++ ": " ++ e.message))

/-- The file-system capability plugin registered on line 4 of `lib.rs`
(`tauri_plugin_fs::init()`); its descriptor is well-formed. -/
def fsPlugin : PluginDescriptor :=
  { name := "fs", wellFormed := true }

/-- The dialog capability plugin registered on line 5 of `lib.rs`
(`tauri_plugin_dialog::init()`); its descriptor is well-formed. -/
def dialogPlugin : PluginDescriptor :=
  { name := "dialog", wellFormed := true }

/-- The Setup Hook of `lib.rs` lines 6-10: it prints the startup
diagnostic to standard output and returns `Ok(())`. -/
def novaSetupHook : SetupHook := fun _app =>
  (["Nova Editor starting up..."], Except.ok ())

/-- The builder chain of `lib.rs` lines 3-10: the default builder,
then the "fs" plugin, then the "dialog" plugin, then the setup hook. -/
def novaBuilder : Builder :=
  ((Builder.default.plugin fsPlugin).plugin dialogPlugin).setup novaSetupHook

/-- The composed Application of the source program: the plugin list
and hook are exactly those accumulated by `novaBuilder`. -/
def novaApp : Application :=
  { plugins := novaBuilder.plugins, setupHook := novaBuilder.setupHook }

/-- The `run` entry point of `lib.rs` lines 2-13: runs the composed
application against the host environment and turns any fatal error
into an `.expect` panic. -/
def run (env : HostEnv) : List Event × Outcome :=
  processOutcome (novaApp.runWith env)

/-- Recognizer for the setup-invocation event. -/
def isSetupEvent : Event → Bool
  | Event.setupInvoked => true
  | _ => false

/-- Number of setup-hook invocations recorded in a trace. -/
def countSetup (tr : List Event) : Nat :=
  (tr.filter isSetupEvent).length

/-- Standard-output lines recorded in a trace. -/
def stdoutLines (tr : List Event) : List String :=
  tr.filterMap fun e =>
    match e with
    | Event.stdout s => some s
    | _ => none

/-- A host environment in which every bootstrap stage succeeds. -/
def goodEnv : HostEnv :=
  { context := some { config := "tauri.conf.json" }
    registerOk := fun _ => true
    eventLoopStarts := true }

/-- A host environment in which context loading fails. -/
def noContextEnv : HostEnv :=
  { context := none
    registerOk := fun _ => true
    eventLoopStarts := true }

/-- Every event produced by `registerTrace` is a registration event. -/
theorem registerTrace_events (ok : String → Bool) (ps : List PluginDescriptor) :
    ∀ e ∈ (registerTrace ok ps).1, ∃ n, e = Event.registered n := by
  induction ps with
  | nil => intro e he; simp [registerTrace] at he
  | cons p ps ih =>
    intro e he
    by_cases hp : ok p.name
    · simp [registerTrace, hp] at he
      rcases he with he | he
      · exact ⟨p.name, he⟩
      · exact ih e he
    · simp [registerTrace, hp] at he

/-- The registration trace contains no setup-invocation event. -/
theorem registerTrace_no_setup (ok : String → Bool) (ps : List PluginDescriptor) :
    Event.setupInvoked ∉ (registerTrace ok ps).1 := by
  intro h
  rcases registerTrace_events ok ps Event.setupInvoked h with ⟨n, hn⟩
  cases hn

/-- The registration trace contains no event-loop-entry event. -/
theorem registerTrace_no_loop (ok : String → Bool) (ps : List PluginDescriptor) :
    Event.eventLoopEntered ∉ (registerTrace ok ps).1 := by
  intro h
  rcases registerTrace_events ok ps Event.eventLoopEntered h with ⟨n, hn⟩
  cases hn

/-- The setup stage contains no event-loop-entry event. -/
theorem setupEvents_no_loop (hook : Option SetupHook) (ctx : ApplicationContext) :
    Event.eventLoopEntered ∉ (setupEvents hook ctx).1 := by
  cases hook with
  | none => simp [setupEvents]
  | some h => simp [setupEvents]

/-- The setup stage records at most one setup invocation. -/
theorem setupEvents_countSetup_le_one (hook : Option SetupHook) (ctx : ApplicationContext) :
    countSetup (setupEvents hook ctx).1 ≤ 1 := by
  cases hook with
  | none => simp [setupEvents, countSetup]
  | some h =>
    simp only [setupEvents, countSetup, List.filter_cons]
    have hz : ((((h ctx).1.map Event.stdout).filter isSetupEvent)).length = 0 := by
      simp [List.filter_eq_nil_iff, isSetupEvent]
    simp [isSetupEvent, hz]

/-- Counting setup invocations distributes over trace concatenation. -/
theorem countSetup_append (a b : List Event) :
    countSetup (a ++ b) = countSetup a + countSetup b := by
  simp [countSetup, List.filter_append]

/-- The registration trace records no setup invocation. -/
theorem registerTrace_countSetup (ok : String → Bool) (ps : List PluginDescriptor) :
    countSetup (registerTrace ok ps).1 = 0 := by
  simp only [countSetup, List.length_eq_zero, List.filter_eq_nil_iff]
  intro e he
  rcases registerTrace_events ok ps e he with ⟨n, hn⟩
  subst hn
  simp [isSetupEvent]

/-- When context loading and both plugin registrations succeed, the
run of the source program produces exactly the registration events for
"fs" and "dialog", the setup invocation, the startup diagnostic line,
and (when the event loop starts) the event-loop entry. -/
theorem nova_runWith_eq (env : HostEnv) (ctx : ApplicationContext)
    (hctx : env.context = some ctx)
    (hfs : env.registerOk "fs" = true)
    (hdl : env.registerOk "dialog" = true) :
    novaApp.runWith env =
      ([Event.registered "fs", Event.registered "dialog", Event.setupInvoked,
        Event.stdout "Nova Editor starting up..."] ++
        (if env.eventLoopStarts then [Event.eventLoopEntered] else []),
       if env.eventLoopStarts then RunResult.loops
       else RunResult.failed RunError.eventLoopStart) := by
  cases hl : env.eventLoopStarts <;>
    simp [Application.runWith, novaApp, novaBuilder, Builder.default, Builder.plugin,
      Builder.setup, registerTrace, setupEvents, fsPlugin, dialogPlugin, novaSetupHook,
      hctx, hfs, hdl, hl]

/-- The fatal handler preserves the bootstrap trace. -/
theorem processOutcome_fst (r : List Event × RunResult) :
    (processOutcome r).1 = r.1 := by
  rcases r with ⟨tr, rr⟩
  cases rr <;> rfl

/-- Folding `withPlugin` over a list appends it to the accumulated
plugin list. -/
theorem foldl_plugin_plugins (b : Builder) (ps : List PluginDescriptor) :
    (List.foldl Builder.plugin b ps).plugins = b.plugins ++ ps := by
  induction ps generalizing b with
  | nil => simp
  | cons p ps ih => simp [List.foldl_cons, Builder.plugin, ih]

/-- A successful `build` keeps the builder's plugin list unchanged. -/
theorem build_ok_plugins (b : Builder) (a : Application)
    (h : b.build = Except.ok a) : a.plugins = b.plugins := by
  by_cases hb : (b.plugins.filter fun p => !p.wellFormed).isEmpty
  · simp only [Builder.build, hb, if_true, Except.ok.injEq] at h
    rw [← h]
  · simp [Builder.build, hb] at h

/-- C1: in every `run` invocation in which context loading and both
plugin registrations succeed, the Setup Hook is invoked exactly once,
strictly after every plugin registration and strictly before the event
loop begins. -/
theorem setup_hook_runs_once_in_order (env : HostEnv) (ctx : ApplicationContext)
    (hctx : env.context = some ctx)
    (hfs : env.registerOk "fs" = true)
    (hdl : env.registerOk "dialog" = true) :
    ∃ pre post,
      (run env).1 = pre ++ Event.setupInvoked :: post ∧
      Event.setupInvoked ∉ pre ∧ Event.setupInvoked ∉ post ∧
      (∀ n, Event.registered n ∈ (run env).1 → Event.registered n ∈ pre) ∧
      (Event.eventLoopEntered ∈ (run env).1 → Event.eventLoopEntered ∈ post) := by
  have h := nova_runWith_eq env ctx hctx hfs hdl
  have ht : (run env).1 = [Event.registered "fs", Event.registered "dialog",
      Event.setupInvoked, Event.stdout "Nova Editor starting up..."] ++
      (if env.eventLoopStarts then [Event.eventLoopEntered] else []) := by
    rw [run, processOutcome_fst, h]
  refine ⟨[Event.registered "fs", Event.registered "dialog"],
    Event.stdout "Nova Editor starting up..." ::
      (if env.eventLoopStarts then [Event.eventLoopEntered] else []),
    ?_, ?_, ?_, ?_, ?_⟩
  · rw [ht]; cases env.eventLoopStarts <;> simp
  · decide
  · cases env.eventLoopStarts <;> simp
  · intro n hn
    rw [ht] at hn
    cases hl : env.eventLoopStarts <;> rw [hl] at hn <;> simp at hn <;>
      rcases hn with hn | hn <;> simp [hn]
  · intro hn
    rw [ht] at hn
    cases hl : env.eventLoopStarts
    · rw [hl] at hn; simp at hn
    · simp [hl]

/-- C2: for every sequence of `withPlugin` calls the resulting plugin
list is exactly that sequence, `build` preserves it, and the run of
the source program registers "fs" before "dialog" before invoking the
Setup Hook. -/
theorem plugin_registration_order_preserved (env : HostEnv) (ctx : ApplicationContext)
    (hctx : env.context = some ctx)
    (hfs : env.registerOk "fs" = true)
    (hdl : env.registerOk "dialog" = true) :
    (∀ ps : List PluginDescriptor,
        (List.foldl Builder.plugin Builder.default ps).plugins = ps) ∧
    (∀ (b : Builder) (a : Application), b.build = Except.ok a → a.plugins = b.plugins) ∧
    ∃ rest, (run env).1 =
      Event.registered "fs" :: Event.registered "dialog" ::
        Event.setupInvoked :: rest := by
  refine ⟨fun ps => ?_, build_ok_plugins, ?_⟩
  · rw [foldl_plugin_plugins]; simp [Builder.default]
  · have h := nova_runWith_eq env ctx hctx hfs hdl
    refine ⟨Event.stdout "Nova Editor starting up..." ::
      (if env.eventLoopStarts then [Event.eventLoopEntered] else []), ?_⟩
    rw [run, processOutcome_fst, h]
    simp

/-- C4: `run` never returns normally: every execution either blocks in
the event loop or terminates the process with the non-zero panic exit
code 101. -/
theorem run_never_returns_normally (env : HostEnv) :
    (run env).2 = Outcome.eventLoop ∨
    ∃ d, (run env).2 = Outcome.fatal 101 d ∧ (101 : Nat) ≠ 0 := by
  rw [run]
  rcases h : novaApp.runWith env with ⟨tr, rr⟩
  cases rr with
  | loops => left; rfl
  | failed e => right; exact ⟨expectMsg ++ ": " ++ e.message, rfl, by decide⟩

/-- C7: attaching a Setup Hook twice replaces the first hook entirely:
the resulting builder equals the one with only the second hook, stores
the second hook, and runs identically to it. -/
theorem with_setup_last_write_wins (b : Builder) (h1 h2 : SetupHook) :
    (b.setup h1).setup h2 = b.setup h2 ∧
    ((b.setup h1).setup h2).setupHook = some h2 ∧
    ∀ env : HostEnv,
      (Application.mk ((b.setup h1).setup h2).plugins
        ((b.setup h1).setup h2).setupHook).runWith env =
      (Application.mk (b.setup h2).plugins (b.setup h2).setupHook).runWith env :=
  ⟨rfl, rfl, fun _ => rfl⟩

/-- The fatal handler maps the run result to the final outcome. -/
theorem processOutcome_snd (r : List Event × RunResult) :
    (processOutcome r).2 =
      match r.2 with
      | RunResult.loops => Outcome.eventLoop
      | RunResult.failed e => Outcome.fatal 101 (expectMsg ++ ": " ++ e.message) := by
  rcases r with ⟨tr, rr⟩
  cases rr <;> rfl

/-- Case analysis of the Runtime over the stages of the bootstrap: a
run fails at context loading, fails at some plugin registration, fails
in the Setup Hook, or completes setup and then either enters the event
loop or fails to start it. -/
theorem runWith_char (app : Application) (env : HostEnv) :
    (env.context = none ∧
      app.runWith env = ([], RunResult.failed RunError.contextLoad)) ∨
    (∃ ctx evs n, env.context = some ctx ∧
      registerTrace env.registerOk app.plugins = (evs, some n) ∧
      app.runWith env = (evs, RunResult.failed (RunError.pluginRegistration n))) ∨
    (∃ ctx evs sevs m, env.context = some ctx ∧
      registerTrace env.registerOk app.plugins = (evs, none) ∧
      setupEvents app.setupHook ctx = (sevs, Except.error m) ∧
      app.runWith env = (evs ++ sevs, RunResult.failed (RunError.setupFailed m))) ∨
    (∃ ctx evs sevs, env.context = some ctx ∧
      registerTrace env.registerOk app.plugins = (evs, none) ∧
      setupEvents app.setupHook ctx = (sevs, Except.ok ()) ∧
      ((env.eventLoopStarts = true ∧
          app.runWith env = (evs ++ sevs ++ [Event.eventLoopEntered], RunResult.loops)) ∨
        (env.eventLoopStarts = false ∧
          app.runWith env = (evs ++ sevs, RunResult.failed RunError.eventLoopStart)))) := by
  cases hc : env.context with
  | none =>
    left
    exact ⟨rfl, by simp [Application.runWith, hc]⟩
  | some ctx =>
    rcases hre : registerTrace env.registerOk app.plugins with ⟨evs, ro⟩
    cases ro with
    | some n =>
      right; left
      exact ⟨ctx, evs, n, rfl, rfl, by simp [Application.runWith, hc, hre]⟩
    | none =>
      rcases hse : setupEvents app.setupHook ctx with ⟨sevs, sres⟩
      cases sres with
      | error m =>
        right; right; left
        exact ⟨ctx, evs, sevs, m, rfl, rfl, hse,
          by simp [Application.runWith, hc, hre, hse]⟩
      | ok u =>
        cases u
        right; right; right
        refine ⟨ctx, evs, sevs, rfl, rfl, hse, ?_⟩
        cases hl : env.eventLoopStarts
        · right
          exact ⟨rfl, by simp [Application.runWith, hc, hre, hse, hl]⟩
        · left
          exact ⟨rfl, by simp [Application.runWith, hc, hre, hse, hl]⟩

/-- A run that fails never records event-loop entry in its trace. -/
theorem runWith_failed_no_loop (app : Application) (env : HostEnv) (e : RunError)
    (h : (app.runWith env).2 = RunResult.failed e) :
    Event.eventLoopEntered ∉ (app.runWith env).1 := by
  rcases runWith_char app env with
    ⟨_, hr⟩ | ⟨ctx, evs, n, _, hre, hr⟩ | ⟨ctx, evs, sevs, m, _, hre, hse, hr⟩ |
    ⟨ctx, evs, sevs, _, hre, hse, ⟨_, hr⟩ | ⟨_, hr⟩⟩
  · rw [hr]; simp
  · rw [hr]
    have hx := registerTrace_no_loop env.registerOk app.plugins
    rw [hre] at hx
    simpa using hx
  · rw [hr]
    have hx := registerTrace_no_loop env.registerOk app.plugins
    rw [hre] at hx
    have hy := setupEvents_no_loop app.setupHook ctx
    rw [hse] at hy
    simp only [List.mem_append]
    rintro (hm | hm)
    · exact hx hm
    · exact hy hm
  · rw [hr] at h
    simp at h
  · rw [hr]
    have hx := registerTrace_no_loop env.registerOk app.plugins
    rw [hre] at hx
    have hy := setupEvents_no_loop app.setupHook ctx
    rw [hse] at hy
    simp only [List.mem_append]
    rintro (hm | hm)
    · exact hx hm
    · exact hy hm

/-- A bootstrap trace records at most one setup invocation. -/
theorem runWith_countSetup_le_one (app : Application) (env : HostEnv) :
    countSetup (app.runWith env).1 ≤ 1 := by
  have hevs0 := registerTrace_countSetup env.registerOk app.plugins
  have hsevs1 := fun ctx => setupEvents_countSetup_le_one app.setupHook ctx
  have hloopct : countSetup [Event.eventLoopEntered] = 0 := by
    simp [countSetup, isSetupEvent]
  rcases runWith_char app env with
    ⟨_, hr⟩ | ⟨ctx, evs, n, _, hre, hr⟩ | ⟨ctx, evs, sevs, m, _, hre, hse, hr⟩ |
    ⟨ctx, evs, sevs, _, hre, hse, ⟨_, hr⟩ | ⟨_, hr⟩⟩ <;> rw [hr]
  · simp [countSetup]
  · rw [hre] at hevs0
    have h0 : countSetup evs = 0 := hevs0
    show countSetup evs ≤ 1
    omega
  · rw [hre] at hevs0
    have h0 : countSetup evs = 0 := hevs0
    have h1 := hsevs1 ctx
    rw [hse] at h1
    have h2 : countSetup sevs ≤ 1 := h1
    show countSetup (evs ++ sevs) ≤ 1
    rw [countSetup_append]
    omega
  · rw [hre] at hevs0
    have h0 : countSetup evs = 0 := hevs0
    have h1 := hsevs1 ctx
    rw [hse] at h1
    have h2 : countSetup sevs ≤ 1 := h1
    show countSetup (evs ++ sevs ++ [Event.eventLoopEntered]) ≤ 1
    rw [countSetup_append, countSetup_append, hloopct]
    omega
  · rw [hre] at hevs0
    have h0 : countSetup evs = 0 := hevs0
    have h1 := hsevs1 ctx
    rw [hse] at h1
    have h2 : countSetup sevs ≤ 1 := h1
    show countSetup (evs ++ sevs) ≤ 1
    rw [countSetup_append]
    omega

/-- C3: whenever the Setup Hook that a run invokes returns an error,
the event loop is never entered and the process exits non-zero with
the hook's message surfaced in the diagnostic. -/
theorem setup_error_never_enters_event_loop
    (app : Application) (env : HostEnv) (ctx : ApplicationContext)
    (h : SetupHook) (m : String)
    (hctx : env.context = some ctx)
    (hreg : (registerTrace env.registerOk app.plugins).2 = none)
    (hhook : app.setupHook = some h)
    (herr : (h ctx).2 = Except.error m) :
    Event.eventLoopEntered ∉ (processOutcome (app.runWith env)).1 ∧
    (processOutcome (app.runWith env)).2 =
      Outcome.fatal 101 (expectMsg ++ ": " ++ m) ∧ (101 : Nat) ≠ 0 := by
  rcases hre : registerTrace env.registerOk app.plugins with ⟨evs, ro⟩
  rw [hre] at hreg
  simp only at hreg
  subst hreg
  have hrw : app.runWith env =
      (evs ++ (Event.setupInvoked :: (h ctx).1.map Event.stdout),
       RunResult.failed (RunError.setupFailed m)) := by
    unfold Application.runWith
    rw [hctx, hre]
    simp [setupEvents, hhook, herr]
  refine ⟨?_, ?_, by decide⟩
  · rw [processOutcome_fst, hrw]
    intro hmem
    simp at hmem
    have hx := registerTrace_no_loop env.registerOk app.plugins
    rw [hre] at hx
    exact hx hmem
  · rw [hrw]
    rfl

/-- C5: every fatal outcome of `run` carries a non-zero exit code and
a diagnostic built from the underlying error's message; the event loop
is never entered and the setup stage is never retried. -/
theorem fatal_error_exits_nonzero_with_diagnostic (env : HostEnv) (c : Nat) (d : String)
    (hfatal : (run env).2 = Outcome.fatal c d) :
    c ≠ 0 ∧
    (∃ e : RunError, (novaApp.runWith env).2 = RunResult.failed e ∧
        d = expectMsg ++ ": " ++ e.message) ∧
    Event.eventLoopEntered ∉ (run env).1 ∧
    countSetup (run env).1 ≤ 1 := by
  rw [run, processOutcome_snd] at hfatal
  cases hrr : (novaApp.runWith env).2 with
  | loops => rw [hrr] at hfatal; cases hfatal
  | failed e =>
    rw [hrr] at hfatal
    simp only [Outcome.fatal.injEq] at hfatal
    obtain ⟨hc, hd⟩ := hfatal
    subst hc
    refine ⟨by decide, ⟨e, rfl, hd.symm⟩, ?_, ?_⟩
    · rw [run, processOutcome_fst]
      exact runWith_failed_no_loop novaApp env e hrr
    · rw [run, processOutcome_fst]
      exact runWith_countSetup_le_one novaApp env

/-- A Setup Hook that always reports failure, used as a concrete
scenario for the error contract. -/
def failingHook : SetupHook := fun _ =>
  ([], Except.error "disk full")

/-- An application whose Setup Hook always fails. -/
def failingApp : Application :=
  { plugins := [], setupHook := some failingHook }

/-- A Setup Hook that does nothing and reports success. -/
def noopHook : SetupHook := fun _ =>
  ([], Except.ok ())

/-- A descriptor whose initialization routine is malformed. -/
def badPlugin : PluginDescriptor :=
  { name := "broken", wellFormed := false }

/-- A builder holding one malformed descriptor. -/
def badBuilder : Builder :=
  Builder.default.plugin badPlugin

/-- C6: a builder containing a malformed descriptor fails to build;
the error aggregates the name of every malformed descriptor rather
than stopping at the first, and no Application is produced. -/
theorem build_aggregates_all_invalid_plugins (b : Builder)
    (hbad : ∃ p ∈ b.plugins, p.wellFormed = false) :
    ∃ errs, b.build = Except.error errs ∧
      errs = (b.plugins.filter fun p => !p.wellFormed).map PluginDescriptor.name ∧
      (∀ p ∈ b.plugins, p.wellFormed = false → p.name ∈ errs) ∧
      ∀ a : Application, b.build ≠ Except.ok a := by
  obtain ⟨p, hp, hpw⟩ := hbad
  have hne : ((b.plugins.filter fun q => !q.wellFormed).isEmpty) = false := by
    cases he : (b.plugins.filter fun q => !q.wellFormed).isEmpty
    · rfl
    · exfalso
      rw [List.isEmpty_iff] at he
      have hmem : p ∈ b.plugins.filter fun q => !q.wellFormed :=
        List.mem_filter.mpr ⟨hp, by simp [hpw]⟩
      rw [he] at hmem
      simp at hmem
  have hbuild : b.build =
      Except.error ((b.plugins.filter fun q => !q.wellFormed).map PluginDescriptor.name) := by
    simp [Builder.build, hne]
  refine ⟨_, hbuild, rfl, ?_, ?_⟩
  · intro q hq hqw
    simp only [List.mem_map]
    exact ⟨q, List.mem_filter.mpr ⟨hq, by simp [hqw]⟩, rfl⟩
  · intro a hok
    rw [hbuild] at hok
    cases hok

/-- C8: a builder with zero plugins and a no-op Setup Hook builds
successfully and, under a host environment whose context loads and
whose event loop starts, the run completes the bootstrap and enters
the event loop. -/
theorem minimal_builder_enters_event_loop (env : HostEnv) (ctx : ApplicationContext)
    (hctx : env.context = some ctx) (hloop : env.eventLoopStarts = true) :
    ∃ a : Application,
      (Builder.default.setup noopHook).build = Except.ok a ∧
      a.plugins = [] ∧
      (a.runWith env).2 = RunResult.loops ∧
      Event.eventLoopEntered ∈ (a.runWith env).1 := by
  refine ⟨{ plugins := [], setupHook := some noopHook }, rfl, rfl, ?_, ?_⟩ <;>
    simp [Application.runWith, hctx, registerTrace, setupEvents, noopHook, hloop]

/-- C9: the Setup Hook of the source program returns success on every
context, so the setup-failure branch of the bootstrap is unreachable
when running this program. -/
theorem nova_setup_hook_always_ok :
    (∀ ctx : ApplicationContext, (novaSetupHook ctx).2 = Except.ok ()) ∧
    ∀ (env : HostEnv) (m : String),
      (novaApp.runWith env).2 ≠ RunResult.failed (RunError.setupFailed m) := by
  refine ⟨fun _ => rfl, fun env m hcontra => ?_⟩
  rcases runWith_char novaApp env with
    ⟨_, hr⟩ | ⟨ctx, evs, n, _, hre, hr⟩ | ⟨ctx, evs, sevs, m', _, hre, hse, hr⟩ |
    ⟨ctx, evs, sevs, _, hre, hse, ⟨_, hr⟩ | ⟨_, hr⟩⟩ <;> rw [hr] at hcontra <;>
    simp at hcontra
  have : setupEvents novaApp.setupHook ctx =
      (Event.setupInvoked :: [Event.stdout "Nova Editor starting up..."],
        Except.ok ()) := rfl
  rw [this] at hse
  simp at hse

/-- C10: on every success path the startup diagnostic line is the only
standard output of the bootstrap, written exactly once, after both
plugin registrations and before event-loop entry. -/
theorem startup_diagnostic_printed_once (env : HostEnv) (ctx : ApplicationContext)
    (hctx : env.context = some ctx)
    (hfs : env.registerOk "fs" = true)
    (hdl : env.registerOk "dialog" = true) :
    stdoutLines (run env).1 = ["Nova Editor starting up..."] ∧
    ∃ pre post,
      (run env).1 = pre ++ Event.stdout "Nova Editor starting up..." :: post ∧
      (∀ s, Event.stdout s ∉ pre) ∧ (∀ s, Event.stdout s ∉ post) ∧
      (∀ n, Event.registered n ∈ (run env).1 → Event.registered n ∈ pre) ∧
      (Event.eventLoopEntered ∈ (run env).1 → Event.eventLoopEntered ∈ post) := by
  have h := nova_runWith_eq env ctx hctx hfs hdl
  have ht : (run env).1 = [Event.registered "fs", Event.registered "dialog",
      Event.setupInvoked, Event.stdout "Nova Editor starting up..."] ++
      (if env.eventLoopStarts then [Event.eventLoopEntered] else []) := by
    rw [run, processOutcome_fst, h]
  constructor
  · rw [ht]
    cases env.eventLoopStarts <;> simp [stdoutLines]
  · refine ⟨[Event.registered "fs", Event.registered "dialog", Event.setupInvoked],
      (if env.eventLoopStarts then [Event.eventLoopEntered] else []),
      ?_, ?_, ?_, ?_, ?_⟩
    · rw [ht]; cases env.eventLoopStarts <;> simp
    · intro s; simp
    · intro s; cases env.eventLoopStarts <;> simp
    · intro n hn
      rw [ht] at hn
      cases hl : env.eventLoopStarts <;> rw [hl] at hn <;> simp at hn <;>
        rcases hn with hn | hn <;> simp [hn]
    · intro hn
      rw [ht] at hn
      cases hl : env.eventLoopStarts
      · rw [hl] at hn; simp at hn
      · simp [hl]

/-- Witness for C1: in the all-success environment the Setup Hook is
invoked exactly once, after both registrations and before event-loop
entry. -/
theorem setup_hook_runs_once_in_order_witness :
    goodEnv.context = some { config := "tauri.conf.json" } ∧
    goodEnv.registerOk "fs" = true ∧
    goodEnv.registerOk "dialog" = true ∧
    ∃ pre post,
      (run goodEnv).1 = pre ++ Event.setupInvoked :: post ∧
      Event.setupInvoked ∉ pre ∧ Event.setupInvoked ∉ post ∧
      (∀ n, Event.registered n ∈ (run goodEnv).1 → Event.registered n ∈ pre) ∧
      (Event.eventLoopEntered ∈ (run goodEnv).1 → Event.eventLoopEntered ∈ post) :=
  ⟨rfl, rfl, rfl,
    setup_hook_runs_once_in_order goodEnv { config := "tauri.conf.json" } rfl rfl rfl⟩

/-- Witness for C2: in the all-success environment "fs" is registered
before "dialog" before the Setup Hook. -/
theorem plugin_registration_order_preserved_witness :
    goodEnv.context = some { config := "tauri.conf.json" } ∧
    goodEnv.registerOk "fs" = true ∧
    goodEnv.registerOk "dialog" = true ∧
    ((∀ ps : List PluginDescriptor,
        (List.foldl Builder.plugin Builder.default ps).plugins = ps) ∧
      (∀ (b : Builder) (a : Application), b.build = Except.ok a → a.plugins = b.plugins) ∧
      ∃ rest, (run goodEnv).1 =
        Event.registered "fs" :: Event.registered "dialog" ::
          Event.setupInvoked :: rest) :=
  ⟨rfl, rfl, rfl,
    plugin_registration_order_preserved goodEnv { config := "tauri.conf.json" } rfl rfl rfl⟩

/-- Witness for C3: an application whose hook reports "disk full"
never enters the event loop and exits fatally with that message. -/
theorem setup_error_never_enters_event_loop_witness :
    goodEnv.context = some { config := "tauri.conf.json" } ∧
    (registerTrace goodEnv.registerOk failingApp.plugins).2 = none ∧
    failingApp.setupHook = some failingHook ∧
    (failingHook { config := "tauri.conf.json" }).2 = Except.error "disk full" ∧
    (Event.eventLoopEntered ∉ (processOutcome (failingApp.runWith goodEnv)).1 ∧
      (processOutcome (failingApp.runWith goodEnv)).2 =
        Outcome.fatal 101 (expectMsg ++ ": " ++ "disk full") ∧ (101 : Nat) ≠ 0) :=
  ⟨rfl, rfl, rfl, rfl,
    setup_error_never_enters_event_loop failingApp goodEnv
      { config := "tauri.conf.json" } failingHook "disk full" rfl rfl rfl rfl⟩

/-- Witness for C5: with context loading failing, `run` exits with
code 101 and a diagnostic naming the context-load error. -/
theorem fatal_error_exits_nonzero_with_diagnostic_witness :
    (run noContextEnv).2 =
      Outcome.fatal 101 (expectMsg ++ ": " ++ RunError.contextLoad.message) ∧
    ((101 : Nat) ≠ 0 ∧
      (∃ e : RunError, (novaApp.runWith noContextEnv).2 = RunResult.failed e ∧
          expectMsg ++ ": " ++ RunError.contextLoad.message =
            expectMsg ++ ": " ++ e.message) ∧
      Event.eventLoopEntered ∉ (run noContextEnv).1 ∧
      countSetup (run noContextEnv).1 ≤ 1) :=
  ⟨rfl,
    fatal_error_exits_nonzero_with_diagnostic noContextEnv 101
      (expectMsg ++ ": " ++ RunError.contextLoad.message) rfl⟩

/-- Witness for C6: a builder holding the malformed "broken"
descriptor fails to build with a report naming it. -/
theorem build_aggregates_all_invalid_plugins_witness :
    (∃ p ∈ badBuilder.plugins, p.wellFormed = false) ∧
    ∃ errs, badBuilder.build = Except.error errs ∧
      errs = (badBuilder.plugins.filter fun p => !p.wellFormed).map PluginDescriptor.name ∧
      (∀ p ∈ badBuilder.plugins, p.wellFormed = false → p.name ∈ errs) ∧
      ∀ a : Application, badBuilder.build ≠ Except.ok a :=
  ⟨⟨badPlugin, by decide, rfl⟩,
    build_aggregates_all_invalid_plugins badBuilder ⟨badPlugin, by decide, rfl⟩⟩

/-- Witness for C8: the empty builder with the no-op hook runs to the
event loop in the all-success environment. -/
theorem minimal_builder_enters_event_loop_witness :
    goodEnv.context = some { config := "tauri.conf.json" } ∧
    goodEnv.eventLoopStarts = true ∧
    ∃ a : Application,
      (Builder.default.setup noopHook).build = Except.ok a ∧
      a.plugins = [] ∧
      (a.runWith goodEnv).2 = RunResult.loops ∧
      Event.eventLoopEntered ∈ (a.runWith goodEnv).1 :=
  ⟨rfl, rfl,
    minimal_builder_enters_event_loop goodEnv { config := "tauri.conf.json" } rfl rfl⟩

/-- Witness for C10: in the all-success environment the startup line
is the single standard-output line of the bootstrap. -/
theorem startup_diagnostic_printed_once_witness :
    goodEnv.context = some { config := "tauri.conf.json" } ∧
    goodEnv.registerOk "fs" = true ∧
    goodEnv.registerOk "dialog" = true ∧
    (stdoutLines (run goodEnv).1 = ["Nova Editor starting up..."] ∧
      ∃ pre post,
        (run goodEnv).1 = pre ++ Event.stdout "Nova Editor starting up..." :: post ∧
        (∀ s, Event.stdout s ∉ pre) ∧ (∀ s, Event.stdout s ∉ post) ∧
        (∀ n, Event.registered n ∈ (run goodEnv).1 → Event.registered n ∈ pre) ∧
        (Event.eventLoopEntered ∈ (run goodEnv).1 → Event.eventLoopEntered ∈ post)) :=
  ⟨rfl, rfl, rfl,
    startup_diagnostic_printed_once goodEnv { config := "tauri.conf.json" } rfl rfl rfl⟩
